import Mathlib

/-!
Verification of the Murfai backend pipeline (backend/server.js, served with the
React frontend in src/frontend).  The definitions below are a shallow embedding
of the two Express handlers `POST /api/upload` and `POST /api/generate`:
JavaScript strings become `String`, `undefined`/missing JSON fields become
`Option`, `Math.random()` becomes an explicit rational sample `r/d` with
`r < d`, the external HTTP calls become explicit environment records, and the
polling loop becomes a fuel-indexed recursion over a stream of poll responses.
-/

/-! ## JavaScript primitives -/

/-- JS `o || d` on an optional string: `undefined`, `null` and `""` are falsy. -/
def jsOrStr (o : Option String) (d : String) : String :=
  match o with
  | none => d
  | some s => if s = "" then d else s

/-- JS truthiness of an optional string field (`undefined` and `""` are falsy). -/
def jsTruthy (o : Option String) : Bool :=
  match o with
  | none => false
  | some s => s != ""

/-- Characters kept by JS `String.prototype.trim` (whitespace removed at both ends). -/
def trimChars (l : List Char) : List Char :=
  ((l.dropWhile Char.isWhitespace).reverse.dropWhile Char.isWhitespace).reverse

/-- JS `s.trim()`. -/
def jsTrim (s : String) : String := ⟨trimChars s.data⟩

/-- JS `s.toLowerCase()` (character-wise lowering; the source only feeds it ASCII). -/
def jsToLower (s : String) : String := ⟨s.data.map Char.toLower⟩

/-- Whether `needle` occurs as a contiguous run inside `hay`. -/
def infixCheck (needle : List Char) : List Char → Bool
  | [] => needle.isEmpty
  | c :: rest => needle.isPrefixOf (c :: rest) || infixCheck needle rest

/-- JS `hay.includes(needle)`: substring containment. -/
def strIncludes (hay needle : String) : Bool :=
  infixCheck needle.data hay.data

/-- A sample of JS `Math.random()`: the rational `r / d` with `0 ≤ r < d`. -/
structure RandSrc where
  r : Nat
  d : Nat
deriving DecidableEq

/-- JS `Math.floor(Math.random() * n)` where the random sample is `rs.r / rs.d`. -/
def jsRandIdx (rs : RandSrc) (n : Nat) : Nat := rs.r * n / rs.d

theorem jsRandIdx_lt (rs : RandSrc) (n : Nat) (hr : rs.r < rs.d) (hn : 0 < n) :
    jsRandIdx rs n < n :=
  Nat.div_lt_of_lt_mul (mul_lt_mul_of_pos_right hr hn)

/-! ## Story Resolver (`app.post('/api/generate')`, server.js lines 264-351) -/

/-- The fixed stop-word list of the keyword extractor (server.js line 274). -/
def stopWords : List String :=
  ["a", "an", "the", "is", "are", "was", "were", "be", "been", "being", "have",
   "has", "had", "do", "does", "did", "will", "would", "should", "could", "may",
   "might", "can", "tell", "me", "about", "of", "to", "for", "in", "on", "at",
   "by", "with"]

/-- Whitespace tokenisation of the lowercased text.  JS `split(/\s+/)` collapses
whitespace runs while `List.splitOnP` keeps an empty token per separator; the
difference is only extra `""` tokens, all removed by the `length > 3` filter
that every consumer applies. -/
def wsTokens (s : String) : List String :=
  ((jsToLower s).data.splitOnP Char.isWhitespace).map fun l => (⟨l⟩ : String)

/-- server.js lines 275-276: lowercase, split on whitespace, keep tokens longer
than 3 characters that are not stop words, take the first 3. -/
def extractKeywords (userText : String) : List String :=
  ((wsTokens userText).filter fun w =>
    decide (3 < w.length) && !(stopWords.contains w)).take 3

/-- One entry of the external story corpus; each of the three candidate text
fields may be absent. -/
structure CorpusEntry where
  story : Option String
  content : Option String
  text : Option String
deriving DecidableEq

/-- JS `s.story || s.content || s.text || ''` (server.js lines 291, 297, 302). -/
def entryText (e : CorpusEntry) : String :=
  jsOrStr e.story (jsOrStr e.content (jsOrStr e.text ""))

/-- Whether a `'>'` occurs in the character list. -/
def listHasGt : List Char → Bool
  | [] => false
  | c :: rest => if c = '>' then true else listHasGt rest

/-- Whether a `'<'` occurs in the character list. -/
def listHasLt : List Char → Bool
  | [] => false
  | c :: rest => if c = '<' then true else listHasLt rest

/-- Whether the list holds a complete HTML-like tag: a `'<'` with some `'>'`
after it (between a `'<'` and the first `'>'` after it stands a full
`<[^>]*>` match). -/
def hasLtThenGt : List Char → Bool
  | [] => false
  | c :: rest => if c = '<' then listHasGt rest || hasLtThenGt rest else hasLtThenGt rest

/-- Drop everything through the first `'>'` (the tail of a `<[^>]*>` match). -/
def dropThroughGt : List Char → List Char
  | [] => []
  | c :: rest => if c = '>' then rest else dropThroughGt rest

theorem dropThroughGt_length_le (l : List Char) : (dropThroughGt l).length ≤ l.length := by
  induction l with
  | nil => simp [dropThroughGt]
  | cons c rest ih =>
    simp only [dropThroughGt]
    split
    · simp
    · exact Nat.le_trans ih (Nat.le_succ _)

/-- JS `story.replace(/<[^>]*>/g, '')` (server.js line 319): each match runs
from a `'<'` through the first `'>'` after it; a `'<'` with no later `'>'`
starts no match, and then no later character can either. -/
def stripTagsChars : List Char → List Char
  | [] => []
  | c :: rest =>
    if c = '<' then
      if listHasGt rest then stripTagsChars (dropThroughGt rest)
      else c :: rest
    else c :: stripTagsChars rest
termination_by l => l.length
decreasing_by
  · exact Nat.lt_succ_of_le (dropThroughGt_length_le rest)
  · exact Nat.lt_succ_self _

/-- String form of `stripTagsChars`. -/
def stripTags (s : String) : String := ⟨stripTagsChars s.data⟩

/-- JS `Array.prototype.join(sep)`. -/
def joinSep (sep : String) : List String → String
  | [] => ""
  | [x] => x
  | x :: y :: xs => x ++ sep ++ joinSep sep (y :: xs)

/-- The templated narrative synthesised from the keyword list when no corpus
story is usable (server.js lines 336-340), with `mainKeyword = keywords[0] || 'adventure'`. -/
def mkTemplate (keywords : List String) : String :=
  let mainKeyword := jsOrStr keywords.head? "adventure"
  "Once upon a time, in a land far, far away, there was a wonderful story about "
    ++ joinSep ", " keywords
    ++ ". The tale began on a bright sunny morning when everything seemed peaceful and calm. Suddenly, "
    ++ mainKeyword
    ++ " appeared and changed everything! The journey was filled with excitement, mystery, and wonder at every turn. Along the way, there were many challenges to overcome and lessons to learn. Friends were made, obstacles were conquered, and hearts were filled with courage. As the days passed, the adventure grew more thrilling and more magical. Every moment brought new surprises and discoveries that amazed everyone. The story of "
    ++ mainKeyword
    ++ " taught us about bravery, kindness, and the power of believing in ourselves. In the end, everything worked out beautifully, and joy filled the hearts of all who heard this magnificent tale. And so, the legend of "
    ++ joinSep " and " keywords
    ++ " lived on forever, inspiring generations to come. They all lived happily ever after, with memories that would last a lifetime!"

/-- The corpus extraction callback (server.js lines 288-303): filter the entries
whose lowercased text contains any keyword; pick a random match, else a random
entry of the whole list; `undefined` indexing flows to `''` through the
optional chain `randomStory?.story || ... || ''`. -/
def matchingEntries (data : List CorpusEntry) (keywords : List String) : List CorpusEntry :=
  data.filter fun e => keywords.any fun k => strIncludes (jsToLower (entryText e)) k

def extract (data : List CorpusEntry) (keywords : List String) (rm ra : RandSrc) : String :=
  let matching := matchingEntries data keywords
  if 0 < matching.length then
    match matching.get? (jsRandIdx rm matching.length) with
    | some e => entryText e
    | none => ""
  else
    match data.get? (jsRandIdx ra data.length) with
    | some e => entryText e
    | none => ""

/-- The three static fallback stories (server.js lines 345-349). -/
def fallbackStories : List String :=
  ["Once upon a time, in a magical forest filled with wonder, there lived a brave little bunny named Fluffy. Fluffy had the softest white fur and the brightest curious eyes you ever did see. Every morning, she would wake up excited to explore new parts of the enchanted forest. One beautiful spring day, while hopping through a meadow of colorful wildflowers, Fluffy discovered something extraordinary. Hidden beneath a rainbow of petals was a glowing golden carrot that shimmered with magical light! Fluffy couldn't believe her eyes. She carefully picked up the magical carrot and knew immediately that this was something special that needed to be shared. She hopped as fast as her little legs could carry her, gathering all her forest friends together. There was Sammy the squirrel, Oliver the owl, Bella the butterfly, and many more wonderful creatures. When they all saw the magical carrot, their eyes lit up with amazement and joy. Fluffy broke the carrot into pieces and shared it with everyone, and something magical happened. Each friend who ate a piece felt filled with happiness, kindness, and courage. From that day forward, the forest was filled with even more love and friendship than before. Fluffy learned that the best kind of magic comes from sharing and caring for others. And they all played together happily ever after, making beautiful memories every single day!",
   "There was a tiny mouse named Max who lived in the coziest little hole you could imagine, right at the base of an old oak tree. Max's home was decorated with acorn caps and soft moss, and he loved it dearly. But there was one thing Max loved even more than his cozy home, and that was cheese! Max dreamed about cheese day and night. He loved all kinds: sharp cheddar, creamy brie, Swiss with holes, and tangy blue cheese. One extraordinary morning, Max woke up to the most incredible smell wafting through his tiny door. He followed his nose through the forest, over hills, and across babbling brooks. The delicious aroma led him to an enormous cave he had never seen before. When Max entered the cave, he gasped in absolute amazement. There, sitting in the middle of the cave, was the biggest, most magnificent wheel of golden cheese he had ever laid eyes on! It was as tall as a tree and as wide as a house. Max couldn't believe his incredible luck! But then Max had a wonderful idea. Instead of keeping this treasure all to himself, he decided to share it with everyone in the forest. He scurried back home and invited all his friends: the rabbits, the birds, the deer, the foxes, and even the shy hedgehogs. That evening, they had the most spectacular cheese party the forest had ever seen! There was dancing under the stars, singing beautiful songs, and laughter that echoed through the trees. Everyone enjoyed the delicious cheese and thanked Max for his generous heart. Max realized that sharing something special with friends made it taste even better than keeping it all to himself. They celebrated until the moon was high in the sky, and Max went to bed that night with the biggest smile on his face. What an absolutely wonderful and unforgettable day it had been!",
   "High above the clouds, in the bright blue sky, lived a friendly dragon named Spark who was quite different from other dragons. While most dragons breathed fire and guarded treasure, Spark had a very special and unique gift. He could paint the most beautiful, vibrant rainbows anyone had ever seen! Every morning, as the sun began to rise and paint the sky with golden light, Spark would wake up feeling excited and ready to create. He had a magical paintbrush that was as long as a tree and bristles that sparkled with all the colors of the rainbow. Spark would fly gracefully through the clouds, dipping his brush in sunlight and rain, mixing colors that no one had ever seen before. He painted magnificent arches of red, orange, yellow, green, blue, indigo, and violet across the vast sky. The children in the villages below would run outside, point up at the sky, and wave enthusiastically at their friend Spark. Their faces would light up with pure joy and wonder every single time they saw his beautiful creations. Parents would stop their work to admire Spark's artwork, and even the grumpiest grown-ups couldn't help but smile when they saw his rainbows. Spark loved knowing that his art brought happiness to so many people and made their days brighter. He would sometimes paint special shapes in his rainbows: hearts for people in love, stars for those who needed hope, and swirls for anyone who needed a reason to smile. Every evening, as the sun began to set, Spark would paint one last magnificent rainbow to say goodnight to all his friends below. He would curl up on a soft cloud, feeling warm and content, knowing he had made the world more beautiful and colorful that day. Spark was truly the happiest dragon in the entire world, and everyone loved him dearly!"]

/-- Random pick from `fallbackStories` (server.js line 350). -/
def fallbackSelect (rf : RandSrc) : String :=
  match fallbackStories.get? (jsRandIdx rf fallbackStories.length) with
  | some s => s
  | none => ""

/-- The keyword branch of the story derivation (server.js lines 272-341), for
`userText` already trimmed, non-empty and longer than 10 characters.  `corpus`
is `some data` when the single story API call succeeded with an ok status and
JSON body `data`, and `none` when the fetch threw or returned a non-ok status
(in which case `story` keeps its initial `''`).  A fetched story is kept only
when it is truthy and longer than 50 characters, in which case tags are
stripped and the result trimmed; `if (!apiSuccess || !story)` then replaces an
unusable story by the keyword template.  With zero surviving keywords the
`if (keywords.length > 0)` block is skipped and `story` stays `''`. -/
def keywordBranch (userText : String) (corpus : Option (List CorpusEntry))
    (rm ra : RandSrc) : String :=
  let keywords := extractKeywords userText
  if 0 < keywords.length then
    let raw := match corpus with
      | some data => extract data keywords rm ra
      | none => ""
    if raw ≠ "" ∧ 50 < raw.length then
      let cleaned := jsTrim (stripTags raw)
      if cleaned = "" then mkTemplate keywords else cleaned
    else mkTemplate keywords
  else ""

/-- The full story derivation of `POST /api/generate` (server.js lines 266-351):
`userText = (req.body && req.body.text) ? String(req.body.text).trim() : ''`,
then the keyword branch when `userText && userText.length > 10`, else a random
static fallback story. -/
def resolveStory (bodyText : Option String) (corpus : Option (List CorpusEntry))
    (rm ra rf : RandSrc) : String :=
  let userText := match bodyText with
    | some s => jsTrim s
    | none => ""
  if userText ≠ "" ∧ 10 < userText.length then
    keywordBranch userText corpus rm ra
  else
    fallbackSelect rf

/-! ## Narration Orchestrator (`app.post('/api/generate')`, server.js lines 353-395) -/

/-- The Murf TTS response as the handler sees it: the HTTP status flag and body
text, and the two optional JSON fields probed on success. -/
structure MurfResp where
  ok : Bool
  status : Nat
  bodyText : String
  audioFile : Option String
  audioContent : Option String
deriving DecidableEq

/-- The possible results of the Murf response handling: server.js lines 376-391
return `{ story, audioUrl }`, `{ story, base64_audio }` or `{ story, murf }`,
and a non-ok Murf status throws into the catch, which answers HTTP 500 with
`{ error: 'generation_failed', detail }`. -/
inductive GenOutcome where
  | urlResp (story url : String)
  | b64Resp (story b64 : String)
  | rawJsonResp (story : String) (audioFile audioContent : Option String)
  | errResp (detail : String)
deriving DecidableEq

/-- server.js lines 376-391: `if (!murfResp.ok) throw`, else probe
`murfJson.audioFile`, then `murfJson.audioContent`, else pass the raw Murf JSON
through. -/
def murfHandler (story : String) (m : MurfResp) : GenOutcome :=
  if m.ok = false then
    GenOutcome.errResp ("Error: Murf TTS error " ++ toString m.status ++ ": " ++ m.bodyText)
  else if jsTruthy m.audioFile then
    GenOutcome.urlResp story (jsOrStr m.audioFile "")
  else if jsTruthy m.audioContent then
    GenOutcome.b64Resp story (jsOrStr m.audioContent "")
  else
    GenOutcome.rawJsonResp story m.audioFile m.audioContent

/-! ## Upload Orchestrator (`app.post('/api/upload')`, server.js lines 173-256) -/

/-- The JSON body of one AssemblyAI transcript status poll. -/
structure PollJson where
  status : String
  text : Option String
  error : Option String
deriving DecidableEq

/-- The stream of poll responses and the wall clock, indexed by poll number.
`elapsedAtPoll i` is `Date.now() - start` when poll `i` is issued (after the
preceding 1-second sleep), `elapsedAtCheck i` the same clock at the
`Date.now() - start > timeoutMs` test that follows poll `i`. -/
structure PollEnv where
  pollOk : Nat → Bool
  pollStatusCode : Nat → Nat
  pollBody : Nat → String
  pollJson : Nat → PollJson
  elapsedAtPoll : Nat → Nat
  elapsedAtCheck : Nat → Nat

/-- How the polling loop of server.js lines 224-244 ends. -/
inductive PollExit where
  | completed (text : String)
  | pollHttpFail (status : Nat) (body : String)
  | transcriptionError (pj : PollJson)
  | timedOut
deriving DecidableEq

/-- The loop result together with the number of polls that were issued. -/
structure PollState where
  exit : PollExit
  pollsMade : Nat
deriving DecidableEq

/-- The polling loop (server.js lines 224-244): each iteration sleeps 1 second,
issues one status poll, throws on a non-ok response, breaks on `completed`
(returning `pollJson.text || ''`), throws on `error`, and only then compares
the wall clock against the 60-second budget.  The `fuel` argument bounds the
number of iterations of the shallow embedding; `none` means fuel ran out
before the loop ended. -/
def pollLoop (p : PollEnv) : Nat → Nat → Option PollState
  | 0, _ => none
  | fuel + 1, i =>
    if p.pollOk i = false then
      some ⟨PollExit.pollHttpFail (p.pollStatusCode i) (p.pollBody i), i + 1⟩
    else if (p.pollJson i).status = "completed" then
      some ⟨PollExit.completed (jsOrStr (p.pollJson i).text ""), i + 1⟩
    else if (p.pollJson i).status = "error" then
      some ⟨PollExit.transcriptionError (p.pollJson i), i + 1⟩
    else if 60000 < p.elapsedAtCheck i then
      some ⟨PollExit.timedOut, i + 1⟩
    else
      pollLoop p fuel (i + 1)

/-- The environment of one `/api/upload` request: the AssemblyAI upload call,
the transcript-creation call, the poll stream, and whether deleting the
multer temp file would fail. -/
structure UploadEnv where
  upOk : Bool
  upStatus : Nat
  upBodyText : String
  uploadUrl : Option String
  createOk : Bool
  createStatus : Nat
  createBodyText : String
  createId : Option String
  poll : PollEnv
  unlinkFails : Bool

/-- The observable result of the upload handler: the HTTP response fields,
how many provider requests were issued, and whether deletion of the temp
file was attempted. -/
structure HandlerResult where
  status : Nat
  error : Option String
  detail : Option String
  transcript : Option String
  providerCalls : Nat
  cleanupAttempted : Bool
deriving DecidableEq

/-- The temp-file deletion attempt: `fs.unlink(filePath, () => {})` on the
success path and `try { fs.unlinkSync(...) } catch(e){}` on the failure path
both swallow a deletion error; the attempt is made either way. -/
def cleanupAttempt (fails : Bool) : Bool :=
  match (if fails then Except.error "unlink failed" else Except.ok ()) with
  | Except.ok _ => true
  | Except.error _ => true

/-- An HTTP 500 `{ error: 'upload_failed', detail: String(err) }` response of
the catch block (server.js line 254). -/
def uploadFailResult (msg : String) (calls : Nat) (cleanup : Bool) : HandlerResult :=
  { status := 500, error := some "upload_failed", detail := some ("Error: " ++ msg),
    transcript := none, providerCalls := calls, cleanupAttempted := cleanup }

/-- A placeholder for `JSON.stringify(pollJson)` in the transcription-error
message (server.js line 239); no claim depends on its exact text. -/
def jsonStringifyPoll (pj : PollJson) : String :=
  "[object with status " ++ pj.status ++ "]"

/-- The `/api/upload` handler (server.js lines 173-256).  `hasFile = false` is
a request whose multipart body carries no file: the handler answers HTTP 400
`{ error: 'no_file' }` before any provider call.  Otherwise the AssemblyAI
upload, the transcript creation and the polling loop run in order, any failure
flowing through the catch block into an HTTP 500 with an `upload_failed` code
and a detail string; the temp-file deletion is attempted on every path that
created one. -/
def uploadHandler (hasFile : Bool) (env : UploadEnv) (fuel : Nat) : Option HandlerResult :=
  if hasFile = false then
    some { status := 400, error := some "no_file", detail := none, transcript := none,
           providerCalls := 0, cleanupAttempted := false }
  else if env.upOk = false then
    some (uploadFailResult
      ("AssemblyAI upload failed: " ++ toString env.upStatus ++ " " ++ env.upBodyText)
      1 (cleanupAttempt env.unlinkFails))
  else if jsTruthy env.uploadUrl = false then
    some (uploadFailResult "AssemblyAI upload returned no upload_url." 1
      (cleanupAttempt env.unlinkFails))
  else if env.createOk = false then
    some (uploadFailResult
      ("AssemblyAI transcript create failed: " ++ toString env.createStatus ++ " "
        ++ env.createBodyText)
      2 (cleanupAttempt env.unlinkFails))
  else if jsTruthy env.createId = false then
    some (uploadFailResult "AssemblyAI transcript creation failed (no id)." 2
      (cleanupAttempt env.unlinkFails))
  else
    match pollLoop env.poll fuel 0 with
    | none => none
    | some st =>
      match st.exit with
      | PollExit.completed t =>
        some { status := 200, error := none, detail := none, transcript := some t,
               providerCalls := 2 + st.pollsMade,
               cleanupAttempted := cleanupAttempt env.unlinkFails }
      | PollExit.pollHttpFail s b =>
        some (uploadFailResult ("AssemblyAI poll failed: " ++ toString s ++ " " ++ b)
          (2 + st.pollsMade) (cleanupAttempt env.unlinkFails))
      | PollExit.transcriptionError pj =>
        some (uploadFailResult
          ("AssemblyAI transcription error: " ++ jsOrStr pj.error (jsonStringifyPoll pj))
          (2 + st.pollsMade) (cleanupAttempt env.unlinkFails))
      | PollExit.timedOut =>
        some (uploadFailResult "AssemblyAI transcription timed out."
          (2 + st.pollsMade) (cleanupAttempt env.unlinkFails))

/-! ## Concrete environments used by counterexamples and witnesses -/

/-- A run in which every provider call succeeds and the first poll completes
with an absent `text` field (which `pollJson.text || ''` turns into `''`). -/
def envBase : UploadEnv :=
  { upOk := true, upStatus := 200, upBodyText := "",
    uploadUrl := some "https://cdn.assemblyai.com/upload/abc",
    createOk := true, createStatus := 200, createBodyText := "",
    createId := some "job1",
    poll :=
      { pollOk := fun _ => true,
        pollStatusCode := fun _ => 200,
        pollBody := fun _ => "",
        pollJson := fun _ => { status := "completed", text := none, error := none },
        elapsedAtPoll := fun i => 1000 * (i + 1),
        elapsedAtCheck := fun i => 1000 * (i + 1) + 1 },
    unlinkFails := false }

/-- A physically consistent trace in which the check after poll 0 happens at
59500 ms (inside the budget), the loop sleeps one more second and issues poll 1
at 61000 ms, after the 60-second budget has elapsed. -/
def pollEnvLate : PollEnv :=
  { pollOk := fun _ => true,
    pollStatusCode := fun _ => 200,
    pollBody := fun _ => "",
    pollJson := fun i =>
      if i = 0 then { status := "processing", text := none, error := none }
      else { status := "completed", text := some "hi", error := none },
    elapsedAtPoll := fun i => if i = 0 then 59400 else 61000,
    elapsedAtCheck := fun i => if i = 0 then 59500 else 62000 }

/-! ## Helper lemmas about tag markers, trimming and the template -/

theorem listHasGt_eq_true_iff (l : List Char) : listHasGt l = true ↔ '>' ∈ l := by
  induction l with
  | nil => simp [listHasGt]
  | cons c rest ih =>
    simp only [listHasGt, List.mem_cons]
    split
    · simp_all
    · rw [ih]
      constructor
      · exact Or.inr
      · rintro (h | h)
        · exact absurd h.symm (by assumption)
        · exact h

theorem listHasGt_of_sublist {l₁ l₂ : List Char} (h : l₁.Sublist l₂)
    (h1 : listHasGt l₁ = true) : listHasGt l₂ = true := by
  rw [listHasGt_eq_true_iff] at h1 ⊢
  exact h.mem h1

theorem hasLtThenGt_of_no_gt {l : List Char} (h : listHasGt l = false) :
    hasLtThenGt l = false := by
  induction l with
  | nil => rfl
  | cons c rest ih =>
    simp only [listHasGt] at h
    simp only [hasLtThenGt]
    split
    · split at h
      · exact absurd h (by simp)
      · rw [h, ih h]
        rfl
    · split at h
      · exact absurd h (by simp)
      · exact ih h

theorem hasLtThenGt_of_no_lt {l : List Char} (h : listHasLt l = false) :
    hasLtThenGt l = false := by
  induction l with
  | nil => rfl
  | cons c rest ih =>
    simp only [listHasLt] at h
    simp only [hasLtThenGt]
    split at h
    · exact absurd h (by simp)
    · rw [if_neg (by assumption)]
      exact ih h

theorem hasLtThenGt_mono {l₁ l₂ : List Char} (h : l₁.Sublist l₂)
    (h1 : hasLtThenGt l₁ = true) : hasLtThenGt l₂ = true := by
  induction h with
  | slnil => exact h1
  | cons a _ ih =>
    have h2 := ih h1
    simp only [hasLtThenGt]
    split
    · rw [h2, Bool.or_true]
    · exact h2
  | cons₂ a h ih =>
    simp only [hasLtThenGt] at h1 ⊢
    split at h1
    · rw [if_pos (by assumption)]
      rcases Bool.or_eq_true_iff.mp h1 with h3 | h3
      · rw [listHasGt_of_sublist h h3, Bool.true_or]
      · rw [ih h3, Bool.or_true]
    · rw [if_neg (by assumption)]
      exact ih h1

theorem hasLtThenGt_of_sublist_eq_false {l₁ l₂ : List Char} (h : l₁.Sublist l₂)
    (h2 : hasLtThenGt l₂ = false) : hasLtThenGt l₁ = false := by
  cases h1 : hasLtThenGt l₁ with
  | false => rfl
  | true => rw [hasLtThenGt_mono h h1] at h2; cases h2

/-- The output of the tag stripper holds no complete HTML-like tag. -/
theorem stripTagsChars_no_tag (l : List Char) : hasLtThenGt (stripTagsChars l) = false := by
  induction l using stripTagsChars.induct with
  | case1 =>
    rw [stripTagsChars]
    rfl
  | case2 rest hgt ih =>
    rw [stripTagsChars, if_pos rfl, if_pos hgt]
    exact ih
  | case3 rest hgt =>
    rw [stripTagsChars, if_pos rfl, if_neg hgt]
    have hg : listHasGt rest = false := by
      cases hx : listHasGt rest
      · rfl
      · exact absurd hx hgt
    simp only [hasLtThenGt, if_pos rfl]
    rw [hg, hasLtThenGt_of_no_gt hg]
    rfl
  | case4 c rest hc ih =>
    rw [stripTagsChars, if_neg hc]
    simp only [hasLtThenGt, if_neg hc]
    exact ih

theorem trimChars_sublist (l : List Char) : (trimChars l).Sublist l := by
  have h1 : (l.dropWhile Char.isWhitespace).Sublist l := List.dropWhile_sublist _
  have h2 := (@List.dropWhile_sublist Char ((l.dropWhile Char.isWhitespace).reverse)
    Char.isWhitespace).reverse
  rw [List.reverse_reverse] at h2
  exact h2.trans h1

theorem jsTrim_length_le (s : String) : (jsTrim s).length ≤ s.length :=
  (trimChars_sublist s.data).length_le

theorem jsTrim_no_tag {s : String} (h : hasLtThenGt s.data = false) :
    hasLtThenGt (jsTrim s).data = false :=
  hasLtThenGt_of_sublist_eq_false (trimChars_sublist s.data) h

/-- The stripped-and-trimmed corpus story holds no complete tag. -/
theorem cleaned_no_tag (s : String) : hasLtThenGt (jsTrim (stripTags s)).data = false :=
  jsTrim_no_tag (stripTagsChars_no_tag s.data)

theorem listHasLt_append (a b : List Char) :
    listHasLt (a ++ b) = (listHasLt a || listHasLt b) := by
  induction a with
  | nil => rfl
  | cons c rest ih =>
    simp only [List.cons_append, listHasLt]
    split
    · rfl
    · exact ih

theorem listHasLt_strAppend (a b : String) :
    listHasLt (a ++ b).data = (listHasLt a.data || listHasLt b.data) := by
  rw [String.data_append, listHasLt_append]

theorem listHasLt_joinSep (sep : String) (hsep : listHasLt sep.data = false) :
    ∀ l : List String, (∀ k ∈ l, listHasLt k.data = false) →
      listHasLt (joinSep sep l).data = false
  | [], _ => rfl
  | [x], h => h x (List.mem_singleton.mpr rfl)
  | x :: y :: xs, h => by
    have hx := h x (by simp)
    have hrest : ∀ k ∈ y :: xs, listHasLt k.data = false := fun k hk => h k (by simp [hk])
    rw [joinSep, listHasLt_strAppend, listHasLt_strAppend, hx, hsep,
      listHasLt_joinSep sep hsep (y :: xs) hrest]
    rfl

set_option maxRecDepth 16384 in
/-- When no keyword holds a `'<'`, neither does the templated story, hence it
holds no tag marker. -/
theorem mkTemplate_no_tag {kws : List String}
    (h : ∀ k ∈ kws, listHasLt k.data = false) :
    hasLtThenGt (mkTemplate kws).data = false := by
  apply hasLtThenGt_of_no_lt
  have hmain : listHasLt (jsOrStr kws.head? "adventure").data = false := by
    match kws with
    | [] => decide
    | x :: xs =>
      simp only [List.head?, jsOrStr]
      split
      · decide
      · exact h x (by simp)
  simp only [mkTemplate, listHasLt_strAppend, hmain,
    listHasLt_joinSep ", " (by decide) kws h,
    listHasLt_joinSep " and " (by decide) kws h,
    Bool.or_false, Bool.false_or]
  decide

set_option maxRecDepth 16384 in
theorem mkTemplate_ne_empty (kws : List String) : mkTemplate kws ≠ "" := by
  intro h
  have hd : (mkTemplate kws).data = [] := congrArg String.data h
  simp only [mkTemplate, String.data_append] at hd
  rcases List.append_eq_nil.mp hd with ⟨hleft, -⟩
  rcases List.append_eq_nil.mp hleft with ⟨hleft2, -⟩
  rcases List.append_eq_nil.mp hleft2 with ⟨hleft3, -⟩
  rcases List.append_eq_nil.mp hleft3 with ⟨hleft4, -⟩
  rcases List.append_eq_nil.mp hleft4 with ⟨hleft5, -⟩
  rcases List.append_eq_nil.mp hleft5 with ⟨hleft6, -⟩
  rcases List.append_eq_nil.mp hleft6 with ⟨hleft7, -⟩
  rcases List.append_eq_nil.mp hleft7 with ⟨hlit, -⟩
  exact absurd hlit (by decide)

/-! ## Helper lemmas about the polling loop -/

/-- With the mandatory 1-second sleep before every poll, the wall clock at the
check after poll `j` is at least `1000 * (j + 1)` ms, and the loop then ends
within 61 iterations: fuel 61 is enough from iteration 0. -/
theorem pollLoop_isSome (p : PollEnv) (hel : ∀ j, 1000 * (j + 1) ≤ p.elapsedAtCheck j) :
    ∀ fuel i, i ≤ 60 → 61 ≤ fuel + i → (pollLoop p fuel i).isSome = true := by
  intro fuel
  induction fuel with
  | zero => intro i h1 h2; omega
  | succ fuel ih =>
    intro i h1 h2
    simp only [pollLoop]
    split_ifs with hc1 hc2 hc3 hc4
    · rfl
    · rfl
    · rfl
    · rfl
    · have h5 : p.elapsedAtCheck i ≤ 60000 := by omega
      have h6 := hel i
      exact ih (i + 1) (by omega) (by omega)

/-- Full characterisation of a finished polling loop run: every poll before
the last had an ok response, a non-terminal status and passed the budget check,
and the last poll ended the loop through exactly one of the four exits. -/
theorem pollLoop_spec (p : PollEnv) :
    ∀ fuel i st, pollLoop p fuel i = some st →
      i < st.pollsMade ∧
      (∀ j, i ≤ j → j + 1 < st.pollsMade →
        p.pollOk j = true ∧ (p.pollJson j).status ≠ "completed" ∧
        (p.pollJson j).status ≠ "error" ∧ p.elapsedAtCheck j ≤ 60000) ∧
      ((p.pollOk (st.pollsMade - 1) = false ∧
          st.exit = PollExit.pollHttpFail (p.pollStatusCode (st.pollsMade - 1))
            (p.pollBody (st.pollsMade - 1))) ∨
        ((p.pollJson (st.pollsMade - 1)).status = "completed" ∧
          st.exit = PollExit.completed (jsOrStr (p.pollJson (st.pollsMade - 1)).text "")) ∨
        ((p.pollJson (st.pollsMade - 1)).status = "error" ∧
          st.exit = PollExit.transcriptionError (p.pollJson (st.pollsMade - 1))) ∨
        (60000 < p.elapsedAtCheck (st.pollsMade - 1) ∧ st.exit = PollExit.timedOut)) := by
  intro fuel
  induction fuel with
  | zero => intro i st h; cases h
  | succ fuel ih =>
    intro i st h
    simp only [pollLoop] at h
    split_ifs at h with hc1 hc2 hc3 hc4
    · cases h
      refine ⟨Nat.lt_succ_self _, fun j hj1 hj2 => absurd hj2 (by simp; omega), ?_⟩
      exact Or.inl ⟨hc1, rfl⟩
    · cases h
      refine ⟨Nat.lt_succ_self _, fun j hj1 hj2 => absurd hj2 (by simp; omega), ?_⟩
      exact Or.inr (Or.inl ⟨hc2, rfl⟩)
    · cases h
      refine ⟨Nat.lt_succ_self _, fun j hj1 hj2 => absurd hj2 (by simp; omega), ?_⟩
      exact Or.inr (Or.inr (Or.inl ⟨hc3, rfl⟩))
    · cases h
      refine ⟨Nat.lt_succ_self _, fun j hj1 hj2 => absurd hj2 (by simp; omega), ?_⟩
      exact Or.inr (Or.inr (Or.inr ⟨hc4, rfl⟩))
    · obtain ⟨ha, hb, hc⟩ := ih (i + 1) st h
      refine ⟨by omega, ?_, hc⟩
      intro j hj1 hj2
      by_cases hji : j = i
      · subst hji
        refine ⟨?_, hc2, hc3, by omega⟩
        cases hx : p.pollOk j
        · exact absurd hx hc1
        · rfl
      · exact hb j (by omega) hj2

/-! ## Helper lemmas about the story resolver branches -/

theorem resolveStory_short {t : String} (h : (jsTrim t).length ≤ 10)
    (c : Option (List CorpusEntry)) (rm ra rf : RandSrc) :
    resolveStory (some t) c rm ra rf = fallbackSelect rf := by
  rw [resolveStory]
  show (if jsTrim t ≠ "" ∧ 10 < (jsTrim t).length then keywordBranch (jsTrim t) c rm ra
    else fallbackSelect rf) = fallbackSelect rf
  rw [if_neg]
  rintro ⟨-, h2⟩
  omega

theorem resolveStory_long {t : String} (h1 : jsTrim t ≠ "") (h2 : 10 < (jsTrim t).length)
    (c : Option (List CorpusEntry)) (rm ra rf : RandSrc) :
    resolveStory (some t) c rm ra rf = keywordBranch (jsTrim t) c rm ra := by
  rw [resolveStory]
  show (if jsTrim t ≠ "" ∧ 10 < (jsTrim t).length then keywordBranch (jsTrim t) c rm ra
    else fallbackSelect rf) = keywordBranch (jsTrim t) c rm ra
  rw [if_pos ⟨h1, h2⟩]

theorem keywordBranch_none {u : String} (hk : extractKeywords u ≠ []) (rm ra : RandSrc) :
    keywordBranch u none rm ra = mkTemplate (extractKeywords u) := by
  rw [keywordBranch]
  show (if 0 < (extractKeywords u).length then
    (if ("" : String) ≠ "" ∧ 50 < ("" : String).length then
      if jsTrim (stripTags "") = "" then mkTemplate (extractKeywords u)
      else jsTrim (stripTags "")
    else mkTemplate (extractKeywords u))
    else "") = mkTemplate (extractKeywords u)
  rw [if_pos (List.length_pos.mpr hk), if_neg (by rintro ⟨h, -⟩; exact h rfl)]

/-- Whatever the corpus call produced, a non-empty keyword list ends the
keyword branch in either the stripped-and-trimmed corpus story (non-empty) or
the keyword template. -/
theorem keywordBranch_cases (u : String) (c : Option (List CorpusEntry)) (rm ra : RandSrc)
    (hk : extractKeywords u ≠ []) :
    (∃ raw, keywordBranch u c rm ra = jsTrim (stripTags raw) ∧ jsTrim (stripTags raw) ≠ "")
    ∨ keywordBranch u c rm ra = mkTemplate (extractKeywords u) := by
  cases c with
  | none => exact Or.inr (keywordBranch_none hk rm ra)
  | some data =>
    have heq : keywordBranch u (some data) rm ra =
      (if 0 < (extractKeywords u).length then
        (if extract data (extractKeywords u) rm ra ≠ "" ∧
            50 < (extract data (extractKeywords u) rm ra).length then
          if jsTrim (stripTags (extract data (extractKeywords u) rm ra)) = "" then
            mkTemplate (extractKeywords u)
          else jsTrim (stripTags (extract data (extractKeywords u) rm ra))
        else mkTemplate (extractKeywords u))
        else "") := rfl
    rw [heq, if_pos (List.length_pos.mpr hk)]
    split_ifs with h1 h2
    · exact Or.inr rfl
    · exact Or.inl ⟨extract data (extractKeywords u) rm ra, rfl, h2⟩
    · exact Or.inr rfl

theorem extract_nil (kws : List String) (rm ra : RandSrc) : extract [] kws rm ra = "" := rfl

theorem keywordBranch_empty_corpus {u : String} (hk : extractKeywords u ≠ [])
    (rm ra : RandSrc) :
    keywordBranch u (some []) rm ra = mkTemplate (extractKeywords u) := by
  rw [keywordBranch]
  show (if 0 < (extractKeywords u).length then
    (if extract [] (extractKeywords u) rm ra ≠ "" ∧
        50 < (extract [] (extractKeywords u) rm ra).length then
      if jsTrim (stripTags (extract [] (extractKeywords u) rm ra)) = "" then
        mkTemplate (extractKeywords u)
      else jsTrim (stripTags (extract [] (extractKeywords u) rm ra))
    else mkTemplate (extractKeywords u))
    else "") = mkTemplate (extractKeywords u)
  rw [if_pos (List.length_pos.mpr hk), if_neg (by rw [extract_nil]; rintro ⟨h, -⟩; exact h rfl)]

theorem extract_mem_matching {data : List CorpusEntry} {kws : List String} (rm ra : RandSrc)
    (hrm : rm.r < rm.d) (hne : matchingEntries data kws ≠ []) :
    extract data kws rm ra ∈ (matchingEntries data kws).map entryText := by
  rw [extract]
  have hlen : 0 < (matchingEntries data kws).length := List.length_pos.mpr hne
  show (if 0 < (matchingEntries data kws).length then _ else _) ∈ _
  rw [if_pos hlen]
  have hidx := jsRandIdx_lt rm _ hrm hlen
  rw [List.get?_eq_get hidx]
  exact List.mem_map_of_mem entryText (List.get_mem _ _ _)

theorem extract_mem_all {data : List CorpusEntry} {kws : List String} (rm ra : RandSrc)
    (hra : ra.r < ra.d) (hmatch : matchingEntries data kws = []) (hne : data ≠ []) :
    extract data kws rm ra ∈ data.map entryText := by
  rw [extract]
  show (if 0 < (matchingEntries data kws).length then _ else _) ∈ _
  rw [if_neg (by rw [hmatch]; simp)]
  have hlen : 0 < data.length := List.length_pos.mpr hne
  have hidx := jsRandIdx_lt ra _ hra hlen
  rw [List.get?_eq_get hidx]
  exact List.mem_map_of_mem entryText (List.get_mem _ _ _)

theorem fallbackSelect_mem (rf : RandSrc) (hrf : rf.r < rf.d) :
    fallbackSelect rf ∈ fallbackStories := by
  rw [fallbackSelect]
  have hlen : 0 < fallbackStories.length := by decide
  have hidx := jsRandIdx_lt rf _ hrf hlen
  rw [List.get?_eq_get hidx]
  exact List.get_mem _ _ _

/-! ## Claims -/

/-- C1: the claim says every execution path of the story derivation returns a
non-empty story, including a transcript longer than 10 characters whose tokens
all fail the keyword filter.  The code violates this: for the 11-character
transcript "aa aa aa aa" every token has length 2, so `keywords` is empty, the
`if (keywords.length > 0)` block is skipped, no fallback branch runs, and the
handler proceeds with `story === ''` — contradicting the spec's explicit
"If zero keywords remain, fall back to the random-fallback branch" and
"Must never return an empty story". -/
theorem c1_zero_keywords_empty_story (c : Option (List CorpusEntry)) (rm ra rf : RandSrc) :
    resolveStory (some "aa aa aa aa") c rm ra rf = ""
    ∧ 10 < ("aa aa aa aa" : String).length
    ∧ extractKeywords "aa aa aa aa" = [] :=
  ⟨rfl, by decide, by decide⟩

/-- C2 counterexample: a run in which every provider call succeeds and the
first poll reports `completed` with an absent `text` field ends with HTTP 200
and the empty transcript — a success whose transcript text is empty, refuting
the claim's "on success the returned transcript text is non-empty". -/
theorem c2_counterexample :
    uploadHandler true envBase 61 =
      some { status := 200, error := none, detail := none, transcript := some "",
             providerCalls := 3, cleanupAttempted := true } := rfl

/-- C2 (amended): provided every status-poll HTTP request itself succeeds, the
poll loop (1-second sleep before each poll, so the clock at check `j` is at
least `1000 * (j+1)` ms) terminates within fuel 61 in exactly one of three
ways: a `completed` status returning `pollJson.text || ''` (possibly empty),
an `error` status failing with the provider's poll JSON, or a budget check
beyond 60000 ms failing with a timeout. -/
theorem c2_poll_loop_three_exits (p : PollEnv)
    (hok : ∀ j, p.pollOk j = true)
    (hel : ∀ j, 1000 * (j + 1) ≤ p.elapsedAtCheck j) :
    ∃ st, pollLoop p 61 0 = some st ∧
      (((p.pollJson (st.pollsMade - 1)).status = "completed" ∧
        st.exit = PollExit.completed (jsOrStr (p.pollJson (st.pollsMade - 1)).text "")) ∨
       ((p.pollJson (st.pollsMade - 1)).status = "error" ∧
        st.exit = PollExit.transcriptionError (p.pollJson (st.pollsMade - 1))) ∨
       (60000 < p.elapsedAtCheck (st.pollsMade - 1) ∧ st.exit = PollExit.timedOut)) := by
  have hs := pollLoop_isSome p hel 61 0 (by omega) (by omega)
  obtain ⟨st, hst⟩ := Option.isSome_iff_exists.mp hs
  obtain ⟨-, -, hc⟩ := pollLoop_spec p 61 0 st hst
  refine ⟨st, hst, ?_⟩
  rcases hc with ⟨hfail, -⟩ | h | h | h
  · rw [hok (st.pollsMade - 1)] at hfail
    cases hfail
  · exact Or.inl h
  · exact Or.inr (Or.inl h)
  · exact Or.inr (Or.inr h)

/-- C2 witness: the three-exit theorem applied to the concrete all-ok trace. -/
theorem c2_poll_loop_three_exits_witness :
    ∃ st, pollLoop envBase.poll 61 0 = some st ∧
      (((envBase.poll.pollJson (st.pollsMade - 1)).status = "completed" ∧
        st.exit = PollExit.completed
          (jsOrStr (envBase.poll.pollJson (st.pollsMade - 1)).text "")) ∨
       ((envBase.poll.pollJson (st.pollsMade - 1)).status = "error" ∧
        st.exit = PollExit.transcriptionError (envBase.poll.pollJson (st.pollsMade - 1))) ∨
       (60000 < envBase.poll.elapsedAtCheck (st.pollsMade - 1) ∧
        st.exit = PollExit.timedOut)) :=
  c2_poll_loop_three_exits envBase.poll (fun _ => rfl) (fun j => Nat.le_succ (1000 * (j + 1)))

/-- C3 counterexample: the loop checks the budget only after each poll, so in
the physically consistent trace `pollEnvLate` (check after poll 0 at 59500 ms,
one more second of sleep, poll 1 issued at 61000 ms) the loop issues its second
status poll after the 60-second budget has already elapsed — refuting "it never
issues a status poll after the budget has already elapsed". -/
theorem c3_counterexample :
    pollLoop pollEnvLate 61 0 = some ⟨PollExit.completed "hi", 2⟩
    ∧ 60000 < pollEnvLate.elapsedAtPoll 1
    ∧ pollEnvLate.elapsedAtCheck 0 + 1000 ≤ pollEnvLate.elapsedAtPoll 1 :=
  ⟨rfl, by decide, by decide⟩

/-- C3 (amended): the loop checks the wall-clock budget once per iteration,
after the status poll; hence every poll except possibly the last one was both
issued and checked within the 60000 ms budget, so at most one status poll can
be issued after the budget has elapsed. -/
theorem c3_budget_checked_after_poll (p : PollEnv) (fuel : Nat) (st : PollState)
    (hmono : ∀ i, p.elapsedAtPoll i ≤ p.elapsedAtCheck i)
    (h : pollLoop p fuel 0 = some st) :
    ∀ i, i + 1 < st.pollsMade → p.elapsedAtCheck i ≤ 60000 ∧ p.elapsedAtPoll i ≤ 60000 := by
  obtain ⟨-, hmid, -⟩ := pollLoop_spec p fuel 0 st h
  intro i hi
  have hk := hmid i (Nat.zero_le i) hi
  exact ⟨hk.2.2.2, le_trans (hmono i) hk.2.2.2⟩

theorem pollEnvLate_mono : ∀ i, pollEnvLate.elapsedAtPoll i ≤ pollEnvLate.elapsedAtCheck i := by
  intro i
  show (if i = 0 then 59400 else 61000) ≤ (if i = 0 then 59500 else 62000)
  split_ifs <;> omega

/-- C3 witness: in the `pollEnvLate` trace the non-final poll 0 was within
budget. -/
theorem c3_budget_checked_after_poll_witness :
    pollEnvLate.elapsedAtCheck 0 ≤ 60000 ∧ pollEnvLate.elapsedAtPoll 0 ≤ 60000 :=
  c3_budget_checked_after_poll pollEnvLate 61 ⟨PollExit.completed "hi", 2⟩
    pollEnvLate_mono rfl 0 (by decide)

/-- C4 counterexample: a request without a file is answered with HTTP 400 and
the body `{ error: 'no_file' }` carrying no detail string — not the HTTP 500
with `{ error, detail }` the claim asserts for every failure of the upload
endpoint. -/
theorem c4_counterexample :
    uploadHandler false envBase 61 =
      some { status := 400, error := some "no_file", detail := none, transcript := none,
             providerCalls := 0, cleanupAttempted := false }
    ∧ (400 : Nat) ≠ 500 :=
  ⟨rfl, by decide⟩

/-- C4 (amended): an upload request with an empty or missing blob fails
immediately — zero provider calls — with HTTP 400 and body `{ error: 'no_file' }`
and no detail string; the 500-with-detail shape applies to the other failures
of the endpoint, which go through the catch block. -/
theorem c4_no_file_immediate (env : UploadEnv) (fuel : Nat) :
    uploadHandler false env fuel =
      some { status := 400, error := some "no_file", detail := none, transcript := none,
             providerCalls := 0, cleanupAttempted := false } := rfl

/-- C5: on every exit of the upload handler on which the temp file was created
(`hasFile = true` and the handler returned), deletion of the file was
attempted, and whether the deletion itself fails has no effect on the
handler's response: the empty unlink callback and the empty catch around
`unlinkSync` swallow the deletion error on the success and failure paths
alike. -/
theorem c5_cleanup_on_every_path (env : UploadEnv) (fuel : Nat) (r : HandlerResult)
    (b b2 : Bool) (h : uploadHandler true env fuel = some r) :
    r.cleanupAttempted = true ∧
    uploadHandler true { env with unlinkFails := b } fuel =
      uploadHandler true { env with unlinkFails := b2 } fuel := by
  have hcl : cleanupAttempt env.unlinkFails = true := by
    cases env.unlinkFails <;> rfl
  refine ⟨?_, by cases b <;> cases b2 <;> rfl⟩
  rw [uploadHandler, if_neg (by decide : ¬(true = false))] at h
  split_ifs at h with h1 h2 h3 h4
  · cases h; exact hcl
  · cases h; exact hcl
  · cases h; exact hcl
  · cases h; exact hcl
  · rcases hpoll : pollLoop env.poll fuel 0 with - | st
    · rw [hpoll] at h
      cases h
    · rw [hpoll] at h
      rcases st with ⟨ex, pm⟩
      cases ex <;> cases h <;> exact hcl

/-- C5 witness: the cleanup theorem applied to the concrete all-ok run. -/
theorem c5_cleanup_on_every_path_witness :
    ({ status := 200, error := none, detail := none, transcript := some "",
       providerCalls := 3, cleanupAttempted := true } : HandlerResult).cleanupAttempted = true ∧
    uploadHandler true { envBase with unlinkFails := true } 61 =
      uploadHandler true { envBase with unlinkFails := false } 61 :=
  c5_cleanup_on_every_path envBase 61 _ true false rfl

/-- A Murf response with an ok status and neither audio field. -/
def murfRespNoAudio : MurfResp :=
  { ok := true, status := 200, bodyText := "", audioFile := none, audioContent := none }

/-- A Murf response with an ok status and an `audioFile` URL. -/
def murfRespWithUrl : MurfResp :=
  { ok := true, status := 200, bodyText := "",
    audioFile := some "https://murf.ai/audio.mp3", audioContent := none }

/-- C6 counterexample: when Murf answers with an ok status but neither an
`audioFile` nor an `audioContent` field, the handler returns the success
response `{ story, murf }` that carries none of the three audio shapes —
refuting "a success response never carries none of the three". -/
theorem c6_counterexample :
    murfHandler "s" murfRespNoAudio = GenOutcome.rawJsonResp "s" none none
    ∧ murfRespNoAudio.ok = true :=
  ⟨rfl, rfl⟩

/-- C6 (amended): the narration handling returns at most one of the audio URL
and base64 shapes, chosen by probing `audioFile` first and `audioContent`
second; when both fields are falsy the success response passes the raw Murf
JSON through with no audio shape at all (raw audio bytes are never produced
by this handler); a non-ok provider status fails with the provider's status
and message. -/
theorem c6_murf_response_shapes (story : String) (m : MurfResp) :
    (m.ok = false →
      murfHandler story m =
        GenOutcome.errResp ("Error: Murf TTS error " ++ toString m.status ++ ": " ++ m.bodyText))
    ∧ (m.ok = true → jsTruthy m.audioFile = true →
      murfHandler story m = GenOutcome.urlResp story (jsOrStr m.audioFile ""))
    ∧ (m.ok = true → jsTruthy m.audioFile = false → jsTruthy m.audioContent = true →
      murfHandler story m = GenOutcome.b64Resp story (jsOrStr m.audioContent ""))
    ∧ (m.ok = true → jsTruthy m.audioFile = false → jsTruthy m.audioContent = false →
      murfHandler story m = GenOutcome.rawJsonResp story m.audioFile m.audioContent) := by
  refine ⟨fun h1 => ?_, fun h1 h2 => ?_, fun h1 h2 h3 => ?_, fun h1 h2 h3 => ?_⟩
  · rw [murfHandler, if_pos h1]
  · rw [murfHandler, if_neg (by simp [h1]), if_pos h2]
  · rw [murfHandler, if_neg (by simp [h1]), if_neg (by simp [h2]), if_pos h3]
  · rw [murfHandler, if_neg (by simp [h1]), if_neg (by simp [h2]), if_neg (by simp [h3])]

/-- C6 witness: the shape theorem applied to a Murf response carrying an
`audioFile` URL. -/
theorem c6_murf_response_shapes_witness :
    murfHandler "story" murfRespWithUrl =
      GenOutcome.urlResp "story" (jsOrStr (some "https://murf.ai/audio.mp3") "") :=
  (c6_murf_response_shapes "story" murfRespWithUrl).2.1 rfl rfl

/-- C7: keyword extraction lowercases, splits on whitespace, keeps only tokens
longer than 3 characters that are not stop words — in original order, at most
3 of them — and on "tell me about dragons and castles" yields exactly
["dragons", "castles"]; when the corpus query fails, the synthesised template
for that transcript is returned and contains the token "dragons". -/
theorem c7_keyword_extraction :
    extractKeywords "tell me about dragons and castles" = ["dragons", "castles"]
    ∧ (∀ t k, k ∈ extractKeywords t →
        3 < k.length ∧ stopWords.contains k = false ∧ k ∈ wsTokens t)
    ∧ (∀ t, (extractKeywords t).length ≤ 3)
    ∧ (∀ t, (extractKeywords t).Sublist (wsTokens t))
    ∧ (∀ rm ra rf : RandSrc,
        resolveStory (some "tell me about dragons and castles") none rm ra rf =
          mkTemplate ["dragons", "castles"])
    ∧ strIncludes (mkTemplate ["dragons", "castles"]) "dragons" = true := by
  refine ⟨by decide, ?_, ?_, ?_, fun rm ra rf => rfl, by decide⟩
  · intro t k hk
    have h1 : k ∈ (wsTokens t).filter fun w =>
        decide (3 < w.length) && !(stopWords.contains w) :=
      List.take_subset 3 _ hk
    rw [List.mem_filter] at h1
    obtain ⟨hmem, hp⟩ := h1
    rw [Bool.and_eq_true] at hp
    obtain ⟨hp1, hp2⟩ := hp
    rw [Bool.not_eq_true'] at hp2
    exact ⟨of_decide_eq_true hp1, hp2, hmem⟩
  · intro t
    rw [extractKeywords, List.length_take]
    exact Nat.min_le_left _ _
  · intro t
    exact (List.take_sublist _ _).trans (List.filter_sublist _)

/-- C7 witness: the extraction-property theorem applied to the keyword
"dragons" of the scenario transcript. -/
theorem c7_keyword_extraction_witness :
    3 < ("dragons" : String).length ∧ stopWords.contains "dragons" = false ∧
      "dragons" ∈ wsTokens "tell me about dragons and castles" :=
  c7_keyword_extraction.2.1 "tell me about dragons and castles" "dragons" (by decide)

/-- C8: every transcript of length at most 10 (the trimmed text then also has
length at most 10, so `userText.length > 10` fails) skips the keyword branch
entirely — the result is independent of the corpus and of the keyword-branch
random samples — and returns a story of the static fallback set, which has
exactly 3 stories, all non-empty, the random index staying within bounds. -/
theorem c8_short_transcript_fallback (t : String) (c c2 : Option (List CorpusEntry))
    (rm ra rm2 ra2 rf : RandSrc) (hlen : t.length ≤ 10) (hrf : rf.r < rf.d) :
    3 ≤ fallbackStories.length
    ∧ (∀ s ∈ fallbackStories, s ≠ "")
    ∧ jsRandIdx rf fallbackStories.length < fallbackStories.length
    ∧ resolveStory (some t) c rm ra rf ∈ fallbackStories
    ∧ resolveStory (some t) c rm ra rf ≠ ""
    ∧ resolveStory (some t) c rm ra rf = resolveStory (some t) c2 rm2 ra2 rf := by
  have htrim : (jsTrim t).length ≤ 10 := le_trans (jsTrim_length_le t) hlen
  have h1 := resolveStory_short htrim c rm ra rf
  have h2 := resolveStory_short htrim c2 rm2 ra2 rf
  have hmem := fallbackSelect_mem rf hrf
  have hne : ∀ s ∈ fallbackStories, s ≠ "" := by decide
  refine ⟨by decide, hne, jsRandIdx_lt rf _ hrf (by decide), ?_, ?_, ?_⟩
  · rw [h1]; exact hmem
  · rw [h1]; exact hne _ hmem
  · rw [h1, h2]

/-- C8 witness: the fallback theorem applied to the 2-character transcript
"hi" with the random sample 0/2. -/
theorem c8_short_transcript_fallback_witness :
    3 ≤ fallbackStories.length
    ∧ (∀ s ∈ fallbackStories, s ≠ "")
    ∧ jsRandIdx ⟨0, 2⟩ fallbackStories.length < fallbackStories.length
    ∧ resolveStory (some "hi") none ⟨0, 2⟩ ⟨0, 2⟩ ⟨0, 2⟩ ∈ fallbackStories
    ∧ resolveStory (some "hi") none ⟨0, 2⟩ ⟨0, 2⟩ ⟨0, 2⟩ ≠ ""
    ∧ resolveStory (some "hi") none ⟨0, 2⟩ ⟨0, 2⟩ ⟨0, 2⟩ =
        resolveStory (some "hi") (some []) ⟨1, 2⟩ ⟨1, 2⟩ ⟨0, 2⟩ :=
  c8_short_transcript_fallback "hi" none (some []) ⟨0, 2⟩ ⟨0, 2⟩ ⟨1, 2⟩ ⟨1, 2⟩ ⟨0, 2⟩
    (by decide) (by decide)

/-- C9 counterexample: the transcript "tell me about <dragons> today" has the
keywords ["<dragons>", "today"]; with the corpus query failing, the templated
story interpolates the keywords verbatim and the resolver output holds a
complete raw HTML tag marker — refuting "the output contains no raw HTML tag
markers" for every keyword-bearing transcript. -/
theorem c9_counterexample :
    hasLtThenGt (resolveStory (some "tell me about <dragons> today") none
      ⟨0, 1⟩ ⟨0, 1⟩ ⟨0, 1⟩).data = true
    ∧ extractKeywords "tell me about <dragons> today" = ["<dragons>", "today"] :=
  ⟨by decide, by decide⟩

/-- C9 (amended): for a transcript whose trimmed text is longer than 10
characters with at least one keyword, the corpus selection is among exactly
the entries whose lowercased text contains some keyword (falling back to the
whole list when none matches), and the resolver output is non-empty; the
output is further free of complete HTML-like tags whenever the keywords
themselves hold no tag marker (a corpus-sourced story is always stripped of
tags, but the template interpolates keywords verbatim). -/
theorem c9_keyword_branch_resolver (t : String) (data : List CorpusEntry) (rm ra rf : RandSrc)
    (h1 : jsTrim t ≠ "") (h2 : 10 < (jsTrim t).length)
    (hk : extractKeywords (jsTrim t) ≠ [])
    (hrm : rm.r < rm.d) (hra : ra.r < ra.d)
    (hclean : ∀ k ∈ extractKeywords (jsTrim t), listHasLt k.data = false) :
    (matchingEntries data (extractKeywords (jsTrim t)) ≠ [] →
      extract data (extractKeywords (jsTrim t)) rm ra ∈
        (matchingEntries data (extractKeywords (jsTrim t))).map entryText)
    ∧ (matchingEntries data (extractKeywords (jsTrim t)) = [] → data ≠ [] →
      extract data (extractKeywords (jsTrim t)) rm ra ∈ data.map entryText)
    ∧ resolveStory (some t) (some data) rm ra rf ≠ ""
    ∧ hasLtThenGt (resolveStory (some t) (some data) rm ra rf).data = false := by
  have hres := resolveStory_long h1 h2 (some data) rm ra rf
  have hcases := keywordBranch_cases (jsTrim t) (some data) rm ra hk
  refine ⟨fun hne => extract_mem_matching rm ra hrm hne,
    fun hm hne => extract_mem_all rm ra hra hm hne, ?_, ?_⟩
  · rw [hres]
    rcases hcases with ⟨raw, heq, hneq⟩ | heq
    · rw [heq]; exact hneq
    · rw [heq]; exact mkTemplate_ne_empty _
  · rw [hres]
    rcases hcases with ⟨raw, heq, hneq⟩ | heq
    · rw [heq]; exact cleaned_no_tag raw
    · rw [heq]; exact mkTemplate_no_tag hclean

/-- The one-entry corpus used by the C9 and C10 witnesses. -/
def dataC9 : List CorpusEntry :=
  [{ story := some "The dragons flew over the tall castles at dawn and sang all night long for everyone.",
     content := none, text := none }]

/-- C9 witness: the keyword-branch theorem applied to the scenario transcript
and a one-entry matching corpus. -/
theorem c9_keyword_branch_resolver_witness :
    resolveStory (some "tell me about dragons and castles") (some dataC9)
      ⟨0, 1⟩ ⟨0, 1⟩ ⟨0, 1⟩ ≠ ""
    ∧ hasLtThenGt (resolveStory (some "tell me about dragons and castles") (some dataC9)
      ⟨0, 1⟩ ⟨0, 1⟩ ⟨0, 1⟩).data = false :=
  ⟨(c9_keyword_branch_resolver "tell me about dragons and castles" dataC9 ⟨0, 1⟩ ⟨0, 1⟩ ⟨0, 1⟩
      (by decide) (by decide) (by decide) (by decide) (by decide) (by decide)).2.2.1,
   (c9_keyword_branch_resolver "tell me about dragons and castles" dataC9 ⟨0, 1⟩ ⟨0, 1⟩ ⟨0, 1⟩
      (by decide) (by decide) (by decide) (by decide) (by decide) (by decide)).2.2.2⟩

/-- C10: a successful corpus query with an empty entry list never indexes out
of bounds: the selection evaluates to the empty string through the optional
chain (`[].get?` is `none` for every index, turned into `''`), and the
resolver then replaces the empty selection by the synthesised template, which
is non-empty. -/
theorem c10_empty_corpus_safe (t : String) (kws : List String) (rm ra rf : RandSrc)
    (h1 : jsTrim t ≠ "") (h2 : 10 < (jsTrim t).length)
    (hk : extractKeywords (jsTrim t) ≠ []) :
    extract [] kws rm ra = ""
    ∧ resolveStory (some t) (some []) rm ra rf = mkTemplate (extractKeywords (jsTrim t))
    ∧ resolveStory (some t) (some []) rm ra rf ≠ "" := by
  refine ⟨rfl, ?_, ?_⟩
  · rw [resolveStory_long h1 h2 (some []) rm ra rf, keywordBranch_empty_corpus hk rm ra]
  · rw [resolveStory_long h1 h2 (some []) rm ra rf, keywordBranch_empty_corpus hk rm ra]
    exact mkTemplate_ne_empty _

/-- C10 witness: the empty-corpus theorem applied to the scenario transcript. -/
theorem c10_empty_corpus_safe_witness :
    extract [] ["dragons"] ⟨0, 1⟩ ⟨0, 1⟩ = ""
    ∧ resolveStory (some "tell me about dragons and castles") (some []) ⟨0, 1⟩ ⟨0, 1⟩ ⟨0, 1⟩ =
        mkTemplate (extractKeywords (jsTrim "tell me about dragons and castles"))
    ∧ resolveStory (some "tell me about dragons and castles") (some []) ⟨0, 1⟩ ⟨0, 1⟩ ⟨0, 1⟩ ≠ "" :=
  c10_empty_corpus_safe "tell me about dragons and castles" ["dragons"] ⟨0, 1⟩ ⟨0, 1⟩ ⟨0, 1⟩
    (by decide) (by decide) (by decide)

